import Mathlib

/-
Verification of the media-monitor ingestion pipeline (src/app.py).

The Python source is shallowly embedded: pure computations become Lean
functions, the sqlite table becomes a list of rows, the per-file workflow
becomes a function from an environment (the outcomes of the external
interactions of one run) and a database to a run outcome, and thread
interleaving for the dedup race becomes an explicit two-worker scheduler.
Python exceptions are modelled with Except: an `error` value is an
exception that the caller has not caught.
-/

namespace MediaMonitor

/-- Codec type of one ffprobe stream descriptor (`codec_type` field). -/
inductive CodecType
  | video
  | audio
  | subtitle
  | other
deriving DecidableEq, Repr

/-- One stream descriptor from the parsed ffprobe JSON.  The field
`language` models the language entry of the tags dict of the stream:
`none` when the stream has no tags dict or no language key, `some l`
when the tag is present with value `l`. -/
structure StreamInfo where
  codec_type : CodecType
  codec_name : String
  language : Option String
deriving DecidableEq, Repr

/-- Parsed ffprobe output (`media_info`): the format name and the list of
stream descriptors.  Only the parts the pipeline reads are modelled. -/
structure MediaInfo where
  format_name : String
  streams : List StreamInfo
deriving DecidableEq, Repr

/-- Python truthiness test applied to the language tag of a stream in
src/app.py:300: the tag counts as missing when it is absent (None) or
the empty string, both falsy in Python. -/
def langMissing (s : StreamInfo) : Bool :=
  match s.language with
  | none => true
  | some l => l == ""

/-- Embeds `audio_missing` of `analyze_file` (src/app.py:299): the number
of audio streams whose language tag is falsy. -/
def audio_missing (mi : MediaInfo) : Nat :=
  mi.streams.countP (fun s => s.codec_type == CodecType.audio && langMissing s)

/-- Embeds `sub_missing` of `analyze_file` (src/app.py:301): the number of
subtitle streams whose language tag is falsy. -/
def sub_missing (mi : MediaInfo) : Nat :=
  mi.streams.countP (fun s => s.codec_type == CodecType.subtitle && langMissing s)

/-- Embeds the `needs_remux` flag of `analyze_file` (src/app.py:304):
set when either missing-language count is positive. -/
def needs_remux (mi : MediaInfo) : Bool :=
  decide (audio_missing mi > 0) || decide (sub_missing mi > 0)

/-- Embeds the status computation of `analyze_file` (src/app.py:295-317):
build the status list (RE-ENCODE for size over 20 GiB, then REMUX, then OK
when empty) and join it with the literal separator. -/
def analyze_status (mi : MediaInfo) (size : Nat) : String :=
  let status : List String := []
  let status := if size > 20 * 1024 * 1024 * 1024 then status ++ ["RE-ENCODE"] else status
  let status := if needs_remux mi then status ++ ["REMUX"] else status
  let status := if status.isEmpty then ["OK"] else status
  String.intercalate " | " status

/-- Existence form of the REMUX trigger: some audio or subtitle stream has
a missing (falsy) language tag. -/
def has_untagged_stream (mi : MediaInfo) : Bool :=
  mi.streams.any (fun s =>
    (s.codec_type == CodecType.audio || s.codec_type == CodecType.subtitle) && langMissing s)

theorem needs_remux_eq_has_untagged (mi : MediaInfo) :
    needs_remux mi = has_untagged_stream mi := by
  have h : needs_remux mi = true ↔ has_untagged_stream mi = true := by
    simp only [needs_remux, has_untagged_stream, Bool.or_eq_true, decide_eq_true_eq,
      audio_missing, sub_missing, List.countP_pos_iff, List.any_eq_true, Bool.and_eq_true,
      beq_iff_eq]
    constructor
    · rintro (⟨s, hs, hct, hl⟩ | ⟨s, hs, hct, hl⟩)
      · exact ⟨s, hs, Or.inl hct, hl⟩
      · exact ⟨s, hs, Or.inr hct, hl⟩
    · rintro ⟨s, hs, hct | hct, hl⟩
      · exact Or.inl ⟨s, hs, hct, hl⟩
      · exact Or.inr ⟨s, hs, hct, hl⟩
  cases hb : needs_remux mi <;> cases hc : has_untagged_stream mi <;>
    rw [hb, hc] at h <;> simp_all

/-- C1: classify returns RE-ENCODE exactly when size exceeds 20 * 1024^3
bytes, REMUX exactly when some audio or subtitle stream lacks a language
tag, OK when neither rule fires, and the combined string
RE-ENCODE | REMUX, with RE-ENCODE first and the literal separator, when
both fire. -/
theorem analyze_status_cases (mi : MediaInfo) (size : Nat) :
    analyze_status mi size =
      if size > 20 * 1024 * 1024 * 1024 then
        if has_untagged_stream mi then "RE-ENCODE | REMUX" else "RE-ENCODE"
      else
        if has_untagged_stream mi then "REMUX" else "OK" := by
  by_cases hb : size > 20 * 1024 * 1024 * 1024 <;>
    cases hu : has_untagged_stream mi <;>
      simp [analyze_status, needs_remux_eq_has_untagged, hb, hu, String.intercalate] <;>
        rfl

/-- C10: an audio or subtitle stream whose language tag is present but
empty is treated like a stream with no language tag at all, and it
triggers the REMUX flag. -/
theorem empty_language_triggers_remux (mi : MediaInfo) (s : StreamInfo)
    (hs : s ∈ mi.streams)
    (hct : s.codec_type = CodecType.audio ∨ s.codec_type = CodecType.subtitle)
    (hl : s.language = some "") :
    needs_remux mi = true ∧ langMissing s = langMissing { s with language := none } := by
  constructor
  · rw [needs_remux_eq_has_untagged]
    simp only [has_untagged_stream, List.any_eq_true, Bool.and_eq_true, Bool.or_eq_true,
      beq_iff_eq]
    refine ⟨s, hs, hct, ?_⟩
    simp [langMissing, hl]
  · simp [langMissing, hl]

/-- Witness for C10 at a concrete metadata record: one audio stream whose
language tag is the empty string. -/
theorem empty_language_triggers_remux_witness :
    needs_remux ⟨"matroska", [⟨CodecType.audio, "aac", some ""⟩]⟩ = true ∧
    langMissing ⟨CodecType.audio, "aac", some ""⟩ =
      langMissing ⟨CodecType.audio, "aac", none⟩ :=
  empty_language_triggers_remux ⟨"matroska", [⟨CodecType.audio, "aac", some ""⟩]⟩
    ⟨CodecType.audio, "aac", some ""⟩ (List.mem_singleton.mpr rfl) (Or.inl rfl) rfl

/-- One observation of the watched file made by the stabilization loop:
its size, or FileNotFoundError, or some other I/O error raised by
`os.path.getsize` (only FileNotFoundError is caught by the loop). -/
inductive Obs
  | size (n : Nat)
  | missing
  | ioerr
deriving DecidableEq, Repr

/-- Loop body of `wait_for_stable_file` (src/app.py:116-127).  The list
holds the successive observations of the file; `last` and `count` are the
`last_size` and `stable_count` locals.  Result: `ok (some true)` when the
function returns True (stable), `ok (some false)` when it returns False
(FileNotFoundError, the file vanished), `ok none` when the observations
ran out while the loop would keep polling, `error` when an uncaught
exception escapes the loop. -/
def waitLoop (checks : Nat) : Int → Nat → List Obs → Except Unit (Option Bool)
  | _, count, [] =>
    if count < checks then Except.ok none else Except.ok (some true)
  | last, count, o :: rest =>
    if count < checks then
      match o with
      | Obs.missing => Except.ok (some false)
      | Obs.ioerr => Except.error ()
      | Obs.size sz =>
        if (sz : Int) = last then waitLoop checks last (count + 1) rest
        else waitLoop checks (sz : Int) 0 rest
    else Except.ok (some true)

/-- Embeds `wait_for_stable_file` (src/app.py:111-127): `last_size` starts
at -1 and `stable_count` at 0. -/
def wait_for_stable_file (obs : List Obs) (checks : Nat) : Except Unit (Option Bool) :=
  waitLoop checks (-1) 0 obs

/-- C2 counterexample: with requiredStableChecks = 3, after consuming
exactly the claimed sample sequences [100, 100, 100] and
[100, 150, 150, 150] the loop is still polling (result `ok none`, the
internal counter is 2): the first sample only initializes the reference
size, so Stable has not been returned at that point. -/
theorem stabilize_three_samples_still_polling :
    wait_for_stable_file [Obs.size 100, Obs.size 100, Obs.size 100] 3 = Except.ok none ∧
    wait_for_stable_file [Obs.size 100, Obs.size 150, Obs.size 150, Obs.size 150] 3 =
      Except.ok none :=
  ⟨rfl, rfl⟩

/-- C2 amended: with requiredStableChecks = 3, a file sampled at 100 four
times returns Stable; the sequence [100, 150, 150, 150, 150] returns
Stable after the counter restarts at the change at the second sample; and
deletion between any two samples, while the loop is still polling,
returns Vanished. -/
theorem stabilize_behaviour :
    wait_for_stable_file [Obs.size 100, Obs.size 100, Obs.size 100, Obs.size 100] 3 =
      Except.ok (some true) ∧
    wait_for_stable_file
      [Obs.size 100, Obs.size 150, Obs.size 150, Obs.size 150, Obs.size 150] 3 =
      Except.ok (some true) ∧
    (∀ j : Nat, j < 4 →
      wait_for_stable_file (List.replicate j (Obs.size 100) ++ [Obs.missing]) 3 =
        Except.ok (some false)) ∧
    (∀ j : Nat, j < 5 →
      wait_for_stable_file
        (([Obs.size 100, Obs.size 150, Obs.size 150, Obs.size 150, Obs.size 150].take j)
          ++ [Obs.missing]) 3 = Except.ok (some false)) := by
  refine ⟨rfl, rfl, ?_, ?_⟩
  · intro j hj
    interval_cases j <;> rfl
  · intro j hj
    interval_cases j <;> rfl

/-- Witness for the stabilization theorem: the file vanishing right at the
first sample yields Vanished. -/
theorem stabilize_behaviour_witness :
    (0 : Nat) < 4 ∧
    wait_for_stable_file (List.replicate 0 (Obs.size 100) ++ [Obs.missing]) 3 =
      Except.ok (some false) :=
  ⟨by decide, stabilize_behaviour.2.2.1 0 (by decide)⟩

/-- One row of the sqlite table `processed_files` (src/app.py:77-84). -/
structure ProcessedFileRecord where
  filepath : String
  processed_at : Nat
  status : String
  size : Nat
deriving DecidableEq, Repr

/-- The `processed_files` table as a list of rows. -/
abbrev DB : Type := List ProcessedFileRecord

/-- Embeds `is_already_processed` (src/app.py:89-96): SELECT of the row
whose filepath matches; true when a row was found. -/
def is_already_processed (db : DB) (filepath : String) : Bool :=
  List.any db (fun r => r.filepath == filepath)

/-- Embeds `mark_as_processed` (src/app.py:99-108): INSERT OR REPLACE on
the primary key `filepath` deletes any conflicting row and inserts the
new one. -/
def mark_as_processed (db : DB) (filepath status : String) (size processed_at : Nat) : DB :=
  List.filter (fun r => !(r.filepath == filepath)) db ++
    [⟨filepath, processed_at, status, size⟩]

theorem countP_filter_ne (db : DB) (p : String) :
    List.countP (fun r => r.filepath == p)
      (List.filter (fun r => !(r.filepath == p)) db) = 0 := by
  rw [List.countP_eq_zero]
  intro a ha
  have h := List.of_mem_filter ha
  simp only [Bool.not_eq_eq_eq_not, Bool.not_true, beq_eq_false_iff_ne, ne_eq] at h
  simp [h]

theorem countP_mark_self (db : DB) (p st : String) (sz t : Nat) :
    List.countP (fun r => r.filepath == p) (mark_as_processed db p st sz t) = 1 := by
  simp only [mark_as_processed, List.countP_append, countP_filter_ne]
  simp [List.countP_cons]

theorem filter_ne_mark (db : DB) (p st : String) (sz t : Nat) :
    List.filter (fun r => !(r.filepath == p)) (mark_as_processed db p st sz t) =
      List.filter (fun r => !(r.filepath == p)) db := by
  simp only [mark_as_processed, List.filter_append]
  have h1 : List.filter (fun r => !(r.filepath == p))
      [(⟨p, t, st, sz⟩ : ProcessedFileRecord)] = [] := by simp
  have h2 : List.filter (fun r => !(r.filepath == p))
      (List.filter (fun r => !(r.filepath == p)) db) =
      List.filter (fun r => !(r.filepath == p)) db :=
    List.filter_eq_self.mpr (fun a ha => (List.mem_filter.mp ha).2)
  rw [h1, h2, List.append_nil]

/-- C4: after markProcessed an immediate isProcessed for the same path is
true; the store then holds exactly one row for that path; markProcessed
overwrites rather than appends (a second markProcessed for the same path
leaves the single row of the second call); and it preserves the
at-most-one-row-per-path invariant for every path. -/
theorem mark_as_processed_upsert (db : DB) (p st : String) (sz t : Nat) :
    is_already_processed (mark_as_processed db p st sz t) p = true ∧
    List.countP (fun r => r.filepath == p) (mark_as_processed db p st sz t) = 1 ∧
    (∀ st2 : String, ∀ sz2 t2 : Nat,
      mark_as_processed (mark_as_processed db p st sz t) p st2 sz2 t2 =
        mark_as_processed db p st2 sz2 t2) ∧
    (∀ q : String, List.countP (fun r => r.filepath == q) db ≤ 1 →
      List.countP (fun r => r.filepath == q) (mark_as_processed db p st sz t) ≤ 1) := by
  refine ⟨?_, countP_mark_self db p st sz t, ?_, ?_⟩
  · have hmem : (⟨p, t, st, sz⟩ : ProcessedFileRecord) ∈ mark_as_processed db p st sz t :=
      List.mem_append_right _ (List.mem_singleton.mpr rfl)
    simp only [is_already_processed, List.any_eq_true]
    exact ⟨_, hmem, by simp⟩
  · intro st2 sz2 t2
    have hdef : mark_as_processed (mark_as_processed db p st sz t) p st2 sz2 t2 =
        List.filter (fun r => !(r.filepath == p)) (mark_as_processed db p st sz t) ++
          [⟨p, t2, st2, sz2⟩] := rfl
    rw [hdef, filter_ne_mark]
    rfl
  · intro q hq
    by_cases hpq : p = q
    · subst hpq
      rw [countP_mark_self]
    · simp only [mark_as_processed, List.countP_append]
      have h1 : List.countP (fun r => r.filepath == q)
          [(⟨p, t, st, sz⟩ : ProcessedFileRecord)] = 0 := by
        simp [List.countP_cons, hpq]
      have h2 : List.countP (fun r => r.filepath == q)
          (List.filter (fun r => !(r.filepath == p)) db) ≤
          List.countP (fun r => r.filepath == q) db :=
        (List.filter_sublist db).countP_le _
      omega

/-- Witness for the dedup-store upsert theorem at a concrete store. -/
theorem mark_as_processed_upsert_witness :
    List.countP (fun r => r.filepath == "/watch/b.mkv")
      ([⟨"/watch/b.mkv", 0, "OK", 7⟩] : DB) ≤ 1 ∧
    List.countP (fun r => r.filepath == "/watch/b.mkv")
      (mark_as_processed [⟨"/watch/b.mkv", 0, "OK", 7⟩] "/watch/a.mkv" "OK" 5 1) ≤ 1 :=
  ⟨by decide,
    (mark_as_processed_upsert [⟨"/watch/b.mkv", 0, "OK", 7⟩] "/watch/a.mkv" "OK" 5 1).2.2.2
      "/watch/b.mkv" (by decide)⟩

/-- Result of `subprocess.run` for the ffprobe invocation: the exit code
and the standard output.  The standard output is represented by its
`json.loads` parse: `none` when the text is not valid JSON (the parse
raises), `some mi` when it parses to the metadata record `mi`. -/
structure RunResult where
  returncode : Int
  stdout_json : Option MediaInfo
deriving Repr

/-- Embeds `get_media_info` (src/app.py:130-141).  The argument is the
outcome of the `subprocess.run` call: `error` when the invocation itself
raises (tool missing, I/O error).  The try block catches every exception,
including a JSON parse failure, and returns None.  The exit code of the
tool is never examined. -/
def get_media_info (run : Except Unit RunResult) : Option MediaInfo :=
  match run with
  | Except.error _ => none
  | Except.ok r => r.stdout_json

/-- Outcome of the HTTP round-trip of one notification channel.
`skipped` is the early return when the channel is disabled or its
endpoint is unset. -/
inductive Delivery
  | skipped
  | delivered
  | non2xx
  | netError
deriving DecidableEq, Repr

/-- Models `requests.post`: raises on a network error, otherwise returns
a response whose status code may be non-2xx. -/
def postAttempt : Delivery → Except Unit Nat
  | Delivery.delivered => Except.ok 200
  | Delivery.non2xx => Except.ok 404
  | _ => Except.error ()

/-- Embeds `send_ntfy_notification` (src/app.py:174-188): early return
when disabled or the topic is unset; otherwise POST, print the status
code on any response, and catch and log every exception. -/
def send_ntfy_notification (d : Delivery) : Except Unit Unit :=
  match d with
  | Delivery.skipped => Except.ok ()
  | d =>
    match postAttempt d with
    | Except.ok _ => Except.ok ()
    | Except.error _ => Except.ok ()

/-- Embeds `send_discord_notification` (src/app.py:191-267): early return
when disabled or the webhook is unset; otherwise build the embed, POST,
and catch and log every exception. -/
def send_discord_notification (d : Delivery) : Except Unit Unit :=
  match d with
  | Delivery.skipped => Except.ok ()
  | d =>
    match postAttempt d with
    | Except.ok _ => Except.ok ()
    | Except.error _ => Except.ok ()

/-- The externally visible operations performed by one run of
`analyze_file`, in order. -/
inductive Action
  | dedupCheckA
  | stabilizeA
  | probeA
  | ntfyA (d : Delivery)
  | discordA (d : Delivery)
  | markA
deriving DecidableEq, Repr

/-- Environment of one `analyze_file` run: the outcomes of its external
interactions.  `dedupRaises` models a sqlite error inside
`is_already_processed`; `obs` drives the stabilization loop;
`sizeResult` is the `os.path.getsize` call after stabilization;
`probeRun` is the ffprobe invocation; `markRaises` models a sqlite error
inside `mark_as_processed`; `now` is the timestamp written. -/
structure FileEnv where
  dedupRaises : Bool
  obs : List Obs
  sizeResult : Except Unit Nat
  probeRun : Except Unit RunResult
  ntfyDelivery : Delivery
  discordDelivery : Delivery
  markRaises : Bool
  now : Nat

/-- Outcome of one `analyze_file` run: the function returned normally
(with the resulting store and the actions performed), an exception
escaped it, or the stabilization loop was still polling when the supplied
observations ran out. -/
inductive RunOutcome
  | finished (db : DB) (trace : List Action)
  | raised (db : DB) (trace : List Action)
  | stillPolling
deriving DecidableEq, Repr

/-- Embeds `analyze_file` (src/app.py:270-336).  The dedup check and the
stabilization wait run before the try block, so their exceptions escape;
everything from the size read to the record write runs inside the try
block, whose except clause catches every exception and returns. -/
def analyze_file (checks : Nat) (env : FileEnv) (db : DB) (filepath : String) : RunOutcome :=
  if env.dedupRaises then RunOutcome.raised db [] else
  if is_already_processed db filepath then
    RunOutcome.finished db [Action.dedupCheckA]
  else
    match wait_for_stable_file env.obs checks with
    | Except.error _ => RunOutcome.raised db [Action.dedupCheckA, Action.stabilizeA]
    | Except.ok none => RunOutcome.stillPolling
    | Except.ok (some false) =>
      RunOutcome.finished db [Action.dedupCheckA, Action.stabilizeA]
    | Except.ok (some true) =>
      match env.sizeResult with
      | Except.error _ =>
        RunOutcome.finished db [Action.dedupCheckA, Action.stabilizeA]
      | Except.ok size =>
        match get_media_info env.probeRun with
        | none =>
          RunOutcome.finished db [Action.dedupCheckA, Action.stabilizeA, Action.probeA]
        | some mi =>
          let status_str := analyze_status mi size
          match send_ntfy_notification env.ntfyDelivery with
          | Except.error _ =>
            RunOutcome.finished db [Action.dedupCheckA, Action.stabilizeA, Action.probeA]
          | Except.ok _ =>
            match send_discord_notification env.discordDelivery with
            | Except.error _ =>
              RunOutcome.finished db
                [Action.dedupCheckA, Action.stabilizeA, Action.probeA,
                  Action.ntfyA env.ntfyDelivery]
            | Except.ok _ =>
              if env.markRaises then
                RunOutcome.finished db
                  [Action.dedupCheckA, Action.stabilizeA, Action.probeA,
                    Action.ntfyA env.ntfyDelivery, Action.discordA env.discordDelivery]
              else
                RunOutcome.finished
                  (mark_as_processed db filepath status_str size env.now)
                  [Action.dedupCheckA, Action.stabilizeA, Action.probeA,
                    Action.ntfyA env.ntfyDelivery, Action.discordA env.discordDelivery,
                    Action.markA]

/-- Concrete metadata record used by counterexamples and witnesses. -/
def sampleInfo : MediaInfo :=
  ⟨"matroska", [⟨CodecType.video, "h264", none⟩, ⟨CodecType.audio, "aac", some "eng"⟩]⟩

/-- C8 counterexample: when ffprobe exits with the non-zero code 1 but
still prints valid JSON on standard output, `get_media_info` returns the
parsed metadata, not the failure value None — the exit code is never
examined, so a non-zero exit does not by itself yield ProbeFailed. -/
theorem nonzero_exit_with_json_not_probe_failed :
    get_media_info (Except.ok ⟨1, some sampleInfo⟩) = some sampleInfo ∧ (1 : Int) ≠ 0 :=
  ⟨rfl, by decide⟩

/-- C8 amended: an I/O error of the invocation itself and malformed
(non-JSON) output each yield ProbeFailed (None); the exit code is never
examined, so the result depends only on what the tool wrote to standard
output. -/
theorem get_media_info_outcomes :
    get_media_info (Except.error ()) = none ∧
    (∀ rc : Int, get_media_info (Except.ok ⟨rc, none⟩) = none) ∧
    (∀ (rc rc2 : Int) (o : Option MediaInfo),
      get_media_info (Except.ok ⟨rc, o⟩) = get_media_info (Except.ok ⟨rc2, o⟩)) :=
  ⟨rfl, fun _ => rfl, fun _ _ _ => rfl⟩

/-- C6: for a path that already has a dedup record, the run stops
silently right after the dedup check: no stabilization polling, no probe,
no notification dispatch, no record write. -/
theorem processed_path_stops_at_dedup (checks : Nat) (env : FileEnv) (db : DB)
    (path : String) (h1 : env.dedupRaises = false)
    (h2 : is_already_processed db path = true) :
    analyze_file checks env db path = RunOutcome.finished db [Action.dedupCheckA] := by
  simp [analyze_file, h1, h2]

/-- Witness for the dedup short-circuit at a concrete store and
environment. -/
theorem processed_path_stops_at_dedup_witness :
    (FileEnv.dedupRaises ⟨false, [Obs.size 5, Obs.size 5, Obs.size 5, Obs.size 5],
        Except.ok 5, Except.ok ⟨0, some sampleInfo⟩, Delivery.delivered,
        Delivery.delivered, false, 9⟩ = false) ∧
    (is_already_processed [⟨"/watch/a.mkv", 3, "OK", 5⟩] "/watch/a.mkv" = true) ∧
    analyze_file 3
      ⟨false, [Obs.size 5, Obs.size 5, Obs.size 5, Obs.size 5], Except.ok 5,
        Except.ok ⟨0, some sampleInfo⟩, Delivery.delivered, Delivery.delivered, false, 9⟩
      [⟨"/watch/a.mkv", 3, "OK", 5⟩] "/watch/a.mkv" =
      RunOutcome.finished [⟨"/watch/a.mkv", 3, "OK", 5⟩] [Action.dedupCheckA] :=
  ⟨rfl, by decide,
    processed_path_stops_at_dedup 3
      ⟨false, [Obs.size 5, Obs.size 5, Obs.size 5, Obs.size 5], Except.ok 5,
        Except.ok ⟨0, some sampleInfo⟩, Delivery.delivered, Delivery.delivered, false, 9⟩
      [⟨"/watch/a.mkv", 3, "OK", 5⟩] "/watch/a.mkv" rfl (by decide)⟩

/-- C5: a run that ends in FileVanished or ProbeFailed finishes with the
store unchanged and no record write, and a later run for the same path on
that store re-attempts the full workflow, whose record write is the last
action. -/
theorem abort_leaves_no_record (checks : Nat) (envV envP envS : FileEnv) (db : DB)
    (path : String) (szP sz : Nat) (mi : MediaInfo)
    (h0 : is_already_processed db path = false)
    (hv1 : envV.dedupRaises = false)
    (hv2 : wait_for_stable_file envV.obs checks = Except.ok (some false))
    (hp1 : envP.dedupRaises = false)
    (hp2 : wait_for_stable_file envP.obs checks = Except.ok (some true))
    (hp3 : envP.sizeResult = Except.ok szP)
    (hp4 : get_media_info envP.probeRun = none)
    (hs1 : envS.dedupRaises = false)
    (hs2 : wait_for_stable_file envS.obs checks = Except.ok (some true))
    (hs3 : envS.sizeResult = Except.ok sz)
    (hs4 : get_media_info envS.probeRun = some mi)
    (hs5 : envS.markRaises = false) :
    analyze_file checks envV db path =
      RunOutcome.finished db [Action.dedupCheckA, Action.stabilizeA] ∧
    analyze_file checks envP db path =
      RunOutcome.finished db [Action.dedupCheckA, Action.stabilizeA, Action.probeA] ∧
    analyze_file checks envS db path =
      RunOutcome.finished (mark_as_processed db path (analyze_status mi sz) sz envS.now)
        [Action.dedupCheckA, Action.stabilizeA, Action.probeA,
          Action.ntfyA envS.ntfyDelivery, Action.discordA envS.discordDelivery,
          Action.markA] := by
  refine ⟨?_, ?_, ?_⟩
  · simp [analyze_file, hv1, h0, hv2]
  · simp [analyze_file, hp1, h0, hp2, hp3, hp4]
  · have hn : send_ntfy_notification envS.ntfyDelivery = Except.ok () := by
      cases envS.ntfyDelivery <;> rfl
    have hd : send_discord_notification envS.discordDelivery = Except.ok () := by
      cases envS.discordDelivery <;> rfl
    simp [analyze_file, hs1, h0, hs2, hs3, hs4, hs5, hn, hd]

/-- Environment of a run whose stabilization observes a vanished file. -/
def envVanish : FileEnv :=
  ⟨false, [Obs.size 5, Obs.missing], Except.ok 5, Except.ok ⟨0, some sampleInfo⟩,
    Delivery.delivered, Delivery.delivered, false, 9⟩

/-- Environment of a run whose probe invocation fails. -/
def envProbeFail : FileEnv :=
  ⟨false, [Obs.size 5, Obs.size 5, Obs.size 5, Obs.size 5], Except.ok 5,
    Except.error (), Delivery.delivered, Delivery.delivered, false, 9⟩

/-- Environment of a fully successful run. -/
def envSuccess : FileEnv :=
  ⟨false, [Obs.size 5, Obs.size 5, Obs.size 5, Obs.size 5], Except.ok 5,
    Except.ok ⟨0, some sampleInfo⟩, Delivery.delivered, Delivery.delivered, false, 9⟩

/-- Witness for the abort-then-retry theorem at concrete environments and
the empty store. -/
theorem abort_leaves_no_record_witness :
    analyze_file 3 envVanish [] "/watch/a.mkv" =
      RunOutcome.finished [] [Action.dedupCheckA, Action.stabilizeA] ∧
    analyze_file 3 envProbeFail [] "/watch/a.mkv" =
      RunOutcome.finished [] [Action.dedupCheckA, Action.stabilizeA, Action.probeA] ∧
    analyze_file 3 envSuccess [] "/watch/a.mkv" =
      RunOutcome.finished
        (mark_as_processed [] "/watch/a.mkv" (analyze_status sampleInfo 5) 5 envSuccess.now)
        [Action.dedupCheckA, Action.stabilizeA, Action.probeA,
          Action.ntfyA envSuccess.ntfyDelivery, Action.discordA envSuccess.discordDelivery,
          Action.markA] :=
  abort_leaves_no_record 3 envVanish envProbeFail envSuccess [] "/watch/a.mkv" 5 5
    sampleInfo (by decide) rfl rfl rfl rfl rfl rfl rfl rfl rfl rfl rfl

/-- C7: both notification dispatch functions return normally for every
delivery outcome (network errors and non-2xx responses are caught and
logged inside the dispatch), and a run in which both channels are
attempted writes the dedup record regardless of the outcome of either
channel — in particular an unreachable rich-channel endpoint stops
neither the simple channel attempt nor the record write. -/
theorem notification_failure_isolated (checks : Nat) (env : FileEnv) (db : DB)
    (path : String) (sz : Nat) (mi : MediaInfo)
    (h0 : is_already_processed db path = false)
    (h1 : env.dedupRaises = false)
    (h2 : wait_for_stable_file env.obs checks = Except.ok (some true))
    (h3 : env.sizeResult = Except.ok sz)
    (h4 : get_media_info env.probeRun = some mi)
    (h5 : env.markRaises = false) :
    send_ntfy_notification env.ntfyDelivery = Except.ok () ∧
    send_discord_notification env.discordDelivery = Except.ok () ∧
    analyze_file checks env db path =
      RunOutcome.finished (mark_as_processed db path (analyze_status mi sz) sz env.now)
        [Action.dedupCheckA, Action.stabilizeA, Action.probeA,
          Action.ntfyA env.ntfyDelivery, Action.discordA env.discordDelivery,
          Action.markA] := by
  have hn : send_ntfy_notification env.ntfyDelivery = Except.ok () := by
    cases env.ntfyDelivery <;> rfl
  have hd : send_discord_notification env.discordDelivery = Except.ok () := by
    cases env.discordDelivery <;> rfl
  exact ⟨hn, hd, by simp [analyze_file, h1, h0, h2, h3, h4, h5, hn, hd]⟩

/-- Environment of a run whose rich-channel endpoint is unreachable. -/
def envDiscordDown : FileEnv :=
  ⟨false, [Obs.size 5, Obs.size 5, Obs.size 5, Obs.size 5], Except.ok 5,
    Except.ok ⟨0, some sampleInfo⟩, Delivery.delivered, Delivery.netError, false, 9⟩

/-- Witness for notification independence: the rich channel hits a
network error, yet both dispatches return normally and the record is
written. -/
theorem notification_failure_isolated_witness :
    send_ntfy_notification envDiscordDown.ntfyDelivery = Except.ok () ∧
    send_discord_notification envDiscordDown.discordDelivery = Except.ok () ∧
    analyze_file 3 envDiscordDown [] "/watch/a.mkv" =
      RunOutcome.finished
        (mark_as_processed [] "/watch/a.mkv" (analyze_status sampleInfo 5) 5
          envDiscordDown.now)
        [Action.dedupCheckA, Action.stabilizeA, Action.probeA,
          Action.ntfyA envDiscordDown.ntfyDelivery,
          Action.discordA envDiscordDown.discordDelivery, Action.markA] :=
  notification_failure_isolated 3 envDiscordDown [] "/watch/a.mkv" 5 sampleInfo
    (by decide) rfl rfl rfl rfl rfl

/-- Environment whose dedup check raises a store error. -/
def envStoreErr : FileEnv :=
  ⟨true, [Obs.size 5, Obs.size 5, Obs.size 5, Obs.size 5], Except.ok 5,
    Except.ok ⟨0, some sampleInfo⟩, Delivery.delivered, Delivery.delivered, false, 9⟩

/-- C9 counterexample: a dedup-store error on the initial
`is_already_processed` call is raised outside the try block of
`analyze_file`, so the exception propagates out of the per-file worker
function instead of being caught at the workflow boundary. -/
theorem dedup_store_error_escapes :
    analyze_file 3 envStoreErr [] "/watch/a.mkv" = RunOutcome.raised [] [] := rfl

theorem waitLoop_no_ioerr (checks : Nat) (obs : List Obs) (h : Obs.ioerr ∉ obs) :
    ∀ (last : Int) (count : Nat), waitLoop checks last count obs ≠ Except.error () := by
  induction obs with
  | nil =>
    intro last count
    simp only [waitLoop]
    split <;> simp
  | cons o rest ih =>
    intro last count
    have hrest : Obs.ioerr ∉ rest := fun hc => h (List.mem_cons_of_mem o hc)
    simp only [waitLoop]
    split
    · split
      · simp
      · exact absurd (List.mem_cons_self _ _) h
      · split
        · exact ih hrest last (count + 1)
        · exact ih hrest _ 0
    · simp

/-- C9 amended: every error arising inside the try block (size read,
probe, notification, record write) is caught at the workflow boundary,
so `analyze_file` raises no exception whenever the initial dedup check
does not raise and the stabilization loop hits no I/O error other than
FileNotFoundError; errors of those two leading steps, by contrast,
propagate. -/
theorem try_block_errors_caught (checks : Nat) (env : FileEnv) (db : DB) (path : String)
    (h1 : env.dedupRaises = false) (h2 : Obs.ioerr ∉ env.obs) :
    ∀ (db2 : DB) (tr : List Action), analyze_file checks env db path ≠ RunOutcome.raised db2 tr := by
  intro db2 tr
  have hw : wait_for_stable_file env.obs checks ≠ Except.error () :=
    waitLoop_no_ioerr checks env.obs h2 (-1) 0
  simp only [analyze_file, h1, Bool.false_eq_true, if_false]
  split
  · simp
  · split
    · exact absurd (by assumption) hw
    · simp
    · simp
    · split
      · simp
      · split
        · simp
        · split
          · simp
          · split
            · simp
            · split <;> simp

/-- Witness for the caught-errors theorem: a run whose probe invocation
and record write both fail still raises nothing. -/
theorem try_block_errors_caught_witness :
    (FileEnv.dedupRaises
      ⟨false, [Obs.size 5, Obs.size 5, Obs.size 5, Obs.size 5], Except.error (),
        Except.error (), Delivery.netError, Delivery.netError, true, 9⟩ = false) ∧
    analyze_file 3
      ⟨false, [Obs.size 5, Obs.size 5, Obs.size 5, Obs.size 5], Except.error (),
        Except.error (), Delivery.netError, Delivery.netError, true, 9⟩
      [] "/watch/a.mkv" ≠ RunOutcome.raised [] [] :=
  ⟨rfl,
    try_block_errors_caught 3
      ⟨false, [Obs.size 5, Obs.size 5, Obs.size 5, Obs.size 5], Except.error (),
        Except.error (), Delivery.netError, Delivery.netError, true, 9⟩
      [] "/watch/a.mkv" rfl (by decide) [] []⟩

/-- Program counter of one worker thread running `analyze_file` on the
same path, split at the atomic shared-store operations: the source takes
no lock between the `is_already_processed` read and the
`mark_as_processed` write, so each sqlite statement is one atomic step,
with stabilization, probing and notification in between touching only
thread-local state. -/
inductive WPc
  | checkPc
  | stabilizePc
  | probePc
  | notifyPc
  | markPc
  | donePc
deriving DecidableEq, Repr

/-- State of two workers racing on the same path: the shared table, each
program counter of each worker, and the total number of probe invocations and
notification dispatches performed. -/
structure Sys where
  db : DB
  pc1 : WPc
  pc2 : WPc
  probes : Nat
  notifies : Nat
deriving DecidableEq, Repr

/-- One atomic step of one worker, following the step order of
`analyze_file`: the dedup check (stop when a record exists), the
stabilization wait, the probe, the notification dispatch, and the record
write. -/
def wstep (path status : String) (size now : Nat) (pc : WPc) (db : DB)
    (probes notifies : Nat) : WPc × DB × Nat × Nat :=
  match pc with
  | WPc.checkPc =>
    if is_already_processed db path then (WPc.donePc, db, probes, notifies)
    else (WPc.stabilizePc, db, probes, notifies)
  | WPc.stabilizePc => (WPc.probePc, db, probes, notifies)
  | WPc.probePc => (WPc.notifyPc, db, probes + 1, notifies)
  | WPc.notifyPc => (WPc.markPc, db, probes, notifies + 1)
  | WPc.markPc => (WPc.donePc, mark_as_processed db path status size now, probes, notifies)
  | WPc.donePc => (WPc.donePc, db, probes, notifies)

/-- Runs a schedule: `true` steps the first worker, `false` the second. -/
def runSchedule (path status : String) (size now : Nat) :
    List Bool → Sys → Sys
  | [], s => s
  | b :: rest, s =>
    if b then
      let r := wstep path status size now s.pc1 s.db s.probes s.notifies
      runSchedule path status size now rest
        ⟨r.2.1, r.1, s.pc2, r.2.2.1, r.2.2.2⟩
    else
      let r := wstep path status size now s.pc2 s.db s.probes s.notifies
      runSchedule path status size now rest
        ⟨r.2.1, s.pc1, r.1, r.2.2.1, r.2.2.2⟩

/-- The schedule in which both workers perform their dedup check before
either reaches the record write. -/
def raceSchedule : List Bool :=
  [true, false, true, true, true, true, false, false, false, false]

/-- C3: the naive read-then-later-write dedup discipline of
`analyze_file` lets two workers racing on the same unprocessed path both
pass the dedup check: under the schedule where both checks precede either
record write, both workers run the full pipeline (two probe invocations,
two notification dispatches), even though the INSERT OR REPLACE upsert
still leaves exactly one record for the path. -/
theorem dedup_race_both_pass :
    (runSchedule "/watch/a.mkv" "OK" 100 0 raceSchedule
        ⟨[], WPc.checkPc, WPc.checkPc, 0, 0⟩).probes = 2 ∧
    (runSchedule "/watch/a.mkv" "OK" 100 0 raceSchedule
        ⟨[], WPc.checkPc, WPc.checkPc, 0, 0⟩).notifies = 2 ∧
    (runSchedule "/watch/a.mkv" "OK" 100 0 raceSchedule
        ⟨[], WPc.checkPc, WPc.checkPc, 0, 0⟩).pc1 = WPc.donePc ∧
    (runSchedule "/watch/a.mkv" "OK" 100 0 raceSchedule
        ⟨[], WPc.checkPc, WPc.checkPc, 0, 0⟩).pc2 = WPc.donePc ∧
    List.countP (fun r => r.filepath == "/watch/a.mkv")
      (runSchedule "/watch/a.mkv" "OK" 100 0 raceSchedule
        ⟨[], WPc.checkPc, WPc.checkPc, 0, 0⟩).db = 1 := by
  refine ⟨rfl, rfl, rfl, rfl, by decide⟩

end MediaMonitor
